import Mathlib

/-
Shallow embedding of the `bim-des` dashboard glue code
(`src/bim_des/ui/main.py` and `src/bim_des/ui/ui_bim.py`).

The repository modules `bim_des.bim` (providing `BimModel.from_ifc` and
`runner_times`) and `bim_des.config.runners` (providing `RunnerConfig`)
are not part of the given source; the spec describes them only as opaque,
fallible constructors and an opaque computation.  They, together with the
third-party fallible operations (`base64.b64decode`, `openpyxl.load_workbook`,
temp-file writing, pydantic validation), are therefore abstracted into an
environment record of fallible functions, and every theorem quantifies over
that environment.  Python exceptions are modelled as `Except.error` carrying
the exception text `str(e)`; the callbacks below mirror the control flow of
the Python `try`/`except` bodies statement by statement.

Dash store values (`dcc.Store` data) are JSON-like Python values, modelled by
`PyVal` below together with Python truthiness.  Rational numbers stand in for
the Python floats carried by the result mapping; the displayed rounding to
three decimal places is modelled by round-half-to-even at three decimals,
matching pandas `DataFrame.round`.
-/

namespace BimDes

/-- Scalar JSON values, as occurring in a pydantic `model_dump(mode=json)`
of the configuration object. -/
inductive PyScalar where
  | str (s : String)
  | int (n : Int)
  | rat (q : ℚ)
  deriving DecidableEq, Repr

/-- Values held by the upload-side Dash `dcc.Store` components: `None`, a
string (the base64 content of the model store) or a JSON object (the dumped
config of the config store). -/
inductive StoreData where
  | pynone
  | str (s : String)
  | obj (entries : List (String × PyScalar))
  deriving DecidableEq, Repr

/-- Python truthiness (`bool(x)`) for the store values that occur here:
`None`, the empty string and the empty dict are falsy. -/
def StoreData.truthy : StoreData → Bool
  | .pynone => false
  | .str s => s ≠ ""
  | .obj d => !d.isEmpty

/-- Callback `bim_compute_button_state` of `main.py`: the `disabled` output of
the compute button is `not (bool(ifc_data) and bool(config_data))`. -/
def bim_compute_button_state (ifc_data config_data : StoreData) : Bool :=
  !(ifc_data.truthy && config_data.truthy)

/-- Outcome of an upload callback status cell: either the success message or
the exception text rendered in a red `html.Pre`. -/
inductive UploadStatus where
  | success (msg : String)
  | failure (msg : String)
  deriving DecidableEq, Repr

/-- The comma character used by the data-URI split in the upload callbacks. -/
def comma : Char := ','

/-- Helper for Python `str.split(sep)` with a one-character separator:
returns the segment currently being built and the remaining segments. -/
def splitCharsAux (c : Char) : List Char → List Char × List (List Char)
  | [] => ([], [])
  | x :: xs =>
    let r := splitCharsAux c xs
    if x = c then ([], r.1 :: r.2) else (x :: r.1, r.2)

/-- Python `str.split(sep)` on a character list: always returns one more
segment than there are separators (so `split` of `""` is `[""]`). -/
def splitChars (c : Char) (l : List Char) : List (List Char) :=
  (splitCharsAux c l).1 :: (splitCharsAux c l).2

/-- Python `s.split(sep)` for a one-character separator, on strings. -/
def pySplit (s : String) (c : Char) : List String :=
  (splitChars c s.data).map String.mk

/-- Python tuple unpacking `a, b = l`: raises `ValueError` unless the list
has exactly two elements. -/
def unpack2 : List String → Except String (String × String)
  | [] => .error "not enough values to unpack (expected 2, got 0)"
  | [_] => .error "not enough values to unpack (expected 2, got 1)"
  | [a, b] => .ok (a, b)
  | _ :: _ :: _ :: _ => .error "too many values to unpack (expected 2)"

/-- Modelled from the spec: `bim_des.bim.BimModel`, an opaque
geometric/topological model constructed from an IFC file and immutable after
construction (the module is absent from the given source).  Only its identity
matters here, so it wraps the raw bytes it was built from. -/
structure BimModel where
  raw : List Nat
  deriving DecidableEq, Repr

/-- Modelled from the spec: an `openpyxl` workbook as loaded from the
uploaded spreadsheet bytes (third-party, opaque here). -/
structure Workbook where
  raw : List Nat
  deriving DecidableEq, Repr

/-- Modelled from the spec: `bim_des.config.runners.RunnerConfig`, a
validated, immutable configuration object (the module is absent from the
given source); opaque wrapper. -/
structure RunnerConfig where
  raw : List Nat
  deriving DecidableEq, Repr

/-- Journey keys of the result mapping: stringifiable keys, either a plain
string or a tuple of strings (the spec calls them composite journey keys). -/
inductive JKey where
  | str (s : String)
  | tup (elems : List String)
  deriving DecidableEq, Repr

/-- The single-quote character, written by code point to keep it out of
string literals. -/
def quoteChar : Char := Char.ofNat 39

/-- Python `repr` of a plain string: the string wrapped in single quotes. -/
def pyRepr (s : String) : String :=
  quoteChar.toString ++ s ++ quoteChar.toString

/-- Tail of a Python tuple `str`: a comma-space and the `repr` of each
further element. -/
def pyStrRest : List String → String
  | [] => ""
  | b :: t => ", " ++ pyRepr b ++ pyStrRest t

/-- Python `str(k)` for a journey key: a plain string prints bare, a tuple
prints as parenthesised comma-separated `repr`s (with the trailing comma of
a one-element tuple). -/
def JKey.pyStr : JKey → String
  | .str s => s
  | .tup [] => "()"
  | .tup [a] => "(" ++ pyRepr a ++ ",)"
  | .tup (a :: b :: t) => "(" ++ pyRepr a ++ pyStrRest (b :: t) ++ ")"

/-- Python `s.replace` of all single quotes by the empty string. -/
def removeQuotes (s : String) : String :=
  String.mk (s.data.filter (fun c => c ≠ quoteChar))

/-- Round-half-to-even of the fraction `n / d` (for positive `d`) to an
integer, the rounding used by pandas and numpy; computed on the numerator
and denominator so that it evaluates by kernel reduction. -/
def roundHalfEven (n : Int) (d : Nat) : Int :=
  let f := Int.fdiv n d
  let r := n - f * d
  if 2 * r < d then f
  else if (d : Int) < 2 * r then f + 1
  else if f % 2 = 0 then f else f + 1

/-- Rounding to three decimal places (`df.round` on the time column). -/
def round3 (q : ℚ) : ℚ :=
  mkRat (roundHalfEven (q.num * 1000) q.den) 1000

/-- Environment of the external fallible operations the callbacks call:
the missing repository modules, the third-party decoders/parsers and the
temp-file write.  `Except.error` carries the Python exception text. -/
structure ExternalEnv where
  b64decode : String → Except String (List Nat)
  write_temp : List Nat → Except String Unit
  from_ifc : List Nat → Except String BimModel
  load_workbook : List Nat → Except String Workbook
  from_excel : Workbook → Except String RunnerConfig
  model_dump : RunnerConfig → List (String × PyScalar)
  model_validate : StoreData → Except String RunnerConfig
  runner_times : BimModel → RunnerConfig → List (JKey × ℚ)

/-- Callback `upload_ifc_file` of `main.py`: split the data URI at the comma,
base64-decode the content, write it to a temp file, validate it with
`BimModel.from_ifc`, and on success store the base64 content string; any
exception is caught and rendered, with `None` stored. -/
def upload_ifc_file (env : ExternalEnv) (file_b64 file_name : String) :
    UploadStatus × StoreData :=
  match unpack2 (pySplit file_b64 comma) with
  | .error e => (.failure e, .pynone)
  | .ok parts =>
    match env.b64decode parts.2 with
    | .error e => (.failure e, .pynone)
    | .ok file_bytes =>
      match env.write_temp file_bytes with
      | .error e => (.failure e, .pynone)
      | .ok _ =>
        match env.from_ifc file_bytes with
        | .error e => (.failure e, .pynone)
        | .ok _ => (.success ("Sucessfully parsed " ++ file_name), .str parts.2)

/-- Callback `upload_runner_config` of `main.py`: split the data URI, decode,
load the workbook, parse it with `RunnerConfig.from_excel`, and on success
store `cfg.model_dump(mode=json)`; any exception is caught and rendered,
with `None` stored. -/
def upload_runner_config (env : ExternalEnv) (file_b64 file_name : String) :
    UploadStatus × StoreData :=
  match unpack2 (pySplit file_b64 comma) with
  | .error e => (.failure e, .pynone)
  | .ok parts =>
    match env.b64decode parts.2 with
    | .error e => (.failure e, .pynone)
    | .ok file_bytes =>
      match env.load_workbook file_bytes with
      | .error e => (.failure e, .pynone)
      | .ok wbook =>
        match env.from_excel wbook with
        | .error e => (.failure e, .pynone)
        | .ok cfg =>
          (.success ("Sucessfully parsed " ++ file_name), .obj (env.model_dump cfg))

/-- Lexical step of `Path.resolve`: a `..` component drops the last resolved
component, anything else is appended. -/
def resolveStep (acc : List String) (comp : String) : List String :=
  if comp = ".." then acc.dropLast else acc ++ [comp]

/-- Lexical normalisation performed by `Path.resolve` on the path
components. -/
def resolveComponents (l : List String) : List String :=
  l.foldl resolveStep []

/-- The relative components joined onto `Path(__file__)` by
`download_runner_template`. -/
def templateRel : List String :=
  ["..", "..", "assets", "runner_times_template.xlsx"]

/-- Callback `download_runner_template` of `main.py`: resolve
`Path(__file__) / ../../assets/runner_times_template.xlsx` and send that
file under the download filename `runner_times_template.xlsx`.  The
argument is `__file__` as a list of path components. -/
def download_runner_template (file_loc : List String) : List String × String :=
  (resolveComponents (file_loc ++ templateRel), "runner_times_template.xlsx")

/-- Rows of the pandas DataFrame built in `ui_bim.compute_runner_times`:
one row per result entry, holding `str(k).replace(quote, empty)` and the
raw time value. -/
def dfRows (rt : List (JKey × ℚ)) : List (String × ℚ) :=
  rt.map (fun kv => (removeQuotes kv.1.pyStr, kv.2))

/-- Cells of the results DataFrame: journey strings and time values. -/
inductive CellVal where
  | str (s : String)
  | rat (q : ℚ)
  deriving DecidableEq, Repr

/-- Python dict produced by `df.to_dict()`: column name to an index-keyed
dict of that column's cells. -/
abbrev DfDict := List (String × List (Int × CellVal))

/-- One column of `DataFrame.to_dict()`: a dict from the integer row index
to the cell value. -/
def colToDict (vals : List CellVal) : List (Int × CellVal) :=
  vals.enum.map (fun iv => ((iv.1 : Int), iv.2))

/-- Python `df.to_dict()` of the two-column DataFrame: a dict from column
name to the index-keyed column dict. -/
def dfToDict (rows : List (String × ℚ)) : DfDict :=
  [ ("runner_journey", colToDict (rows.map (fun r => CellVal.str r.1)))
  , ("runner_time", colToDict (rows.map (fun r => CellVal.rat r.2))) ]

/-- The rendered results fragment of `ui_bim.compute_runner_times`: the
table's column labels, its displayed rows, and the id and data of the
`dcc.Store` it embeds (the data is a dict, given as its entry list). -/
structure RenderedResults where
  columns : List String
  tableRows : List (String × ℚ)
  storeId : String
  storeData : List (String × DfDict)
  deriving DecidableEq, Repr

/-- Function `compute_runner_times` of `ui_bim.py`: run `runner_times`,
build the DataFrame, display it with the time column rounded to three
decimals, and store the unrounded `df.to_dict()` under the key
`runner_times` in the `store-bim-results` store. -/
def ui_compute_runner_times (env : ExternalEnv) (model : BimModel)
    (config : RunnerConfig) : RenderedResults :=
  let df := dfRows (env.runner_times model config)
  { columns := ["runner_journey", "runner_time"]
  , tableRows := df.map (fun r => (r.1, round3 r.2))
  , storeId := "store-bim-results"
  , storeData := [("runner_times", dfToDict df)] }

/-- Output of the `compute_runner_times` callback of `main.py`: either the
rendered results fragment, or the error fragment (heading plus `str(e)`). -/
inductive ComputeOutput where
  | rendered (r : RenderedResults)
  | errorPage (msg : String)
  deriving DecidableEq, Repr

/-- Exception text of `b64decode` applied to a non-string store value
(Python raises `TypeError`). -/
def typeErrorMsg : String :=
  "argument should be a bytes-like object or ASCII string"

/-- Python `b64decode` applied to a raw store value: only a string can be
decoded, anything else raises. -/
def b64decodeStore (env : ExternalEnv) : StoreData → Except String (List Nat)
  | .str s => env.b64decode s
  | _ => .error typeErrorMsg

/-- Callback `compute_runner_times` of `main.py`: re-validate the stored
config JSON with `RunnerConfig.model_validate`, decode the stored base64 and
rebuild the model with `BimModel.from_ifc` via a temp file, then render the
results with `ui_bim.compute_runner_times`; any exception is caught and the
error fragment returned instead. -/
def compute_runner_times (env : ExternalEnv) (cfg model_b64 : StoreData) :
    ComputeOutput :=
  match env.model_validate cfg with
  | .error e => .errorPage e
  | .ok config =>
    match b64decodeStore env model_b64 with
    | .error e => .errorPage e
    | .ok file_bytes =>
      match env.write_temp file_bytes with
      | .error e => .errorPage e
      | .ok _ =>
        match env.from_ifc file_bytes with
        | .error e => .errorPage e
        | .ok model => .rendered (ui_compute_runner_times env model config)

/-- A concrete environment used to evaluate the theorems on concrete
inputs: each operation fails on a designated bad input and succeeds
otherwise. -/
def sampleEnv : ExternalEnv where
  b64decode s := if s = "BAD" then .error "Invalid base64-encoded string" else .ok (s.data.map Char.toNat)
  write_temp _ := .ok ()
  from_ifc bytes := if bytes = [] then .error "not a valid IFC file" else .ok ⟨bytes⟩
  load_workbook bytes := if bytes = [] then .error "File is not a zip file" else .ok ⟨bytes⟩
  from_excel wb := if wb.raw = [0] then .error "missing worksheet" else .ok ⟨wb.raw⟩
  model_dump cfg := [("runners", .int cfg.raw.length)]
  model_validate v := if v.truthy then .ok ⟨[1]⟩ else .error "validation error"
  runner_times _ _ := [(.tup ["a", "b"], mkRat 3 2)]

instance {ε α : Type} [DecidableEq ε] [DecidableEq α] : DecidableEq (Except ε α) := by
  intro a b
  cases a <;> cases b
  case error.error e₁ e₂ => exact decidable_of_iff (e₁ = e₂) (by simp)
  case error.ok e a => exact isFalse (by simp)
  case ok.error a e => exact isFalse (by simp)
  case ok.ok a₁ a₂ => exact decidable_of_iff (a₁ = a₂) (by simp)

/-- Number of separators found by the split helper. -/
theorem splitCharsAux_snd_length (c : Char) (l : List Char) :
    (splitCharsAux c l).2.length = l.count c := by
  induction l with
  | nil => simp [splitCharsAux]
  | cons x xs ih =>
    by_cases h : x = c <;>
      simp [splitCharsAux, h, ih, List.count_cons]

/-- Python `split` returns one more segment than there are separators. -/
theorem pySplit_length (s : String) (c : Char) :
    (pySplit s c).length = s.data.count c + 1 := by
  simp [pySplit, splitChars, splitCharsAux_snd_length]

/-- Tuple unpacking of a list that does not have exactly two elements
raises `ValueError`. -/
theorem unpack2_length_ne_two (l : List String) (h : l.length ≠ 2) :
    ∃ e, unpack2 l = .error e := by
  match l with
  | [] => exact ⟨_, rfl⟩
  | [_] => exact ⟨_, rfl⟩
  | [_, _] => simp at h
  | _ :: _ :: _ :: _ => exact ⟨_, rfl⟩

/-- C1: the compute button's disabled output of `bim_compute_button_state`
is false (button enabled) iff both the stored IFC model data and the stored
runner-config data are truthy, and whenever either store value is null or
empty the callback returns true (button disabled). -/
theorem compute_button_state_spec (i c : StoreData) :
    (bim_compute_button_state i c = false ↔ i.truthy = true ∧ c.truthy = true) ∧
    (i = .pynone ∨ i = .str "" ∨ i = .obj [] ∨
        c = .pynone ∨ c = .str "" ∨ c = .obj [] →
      bim_compute_button_state i c = true) := by
  constructor
  · simp [bim_compute_button_state]
  · rintro (rfl | rfl | rfl | rfl | rfl | rfl) <;>
      simp [bim_compute_button_state, StoreData.truthy]

/-- Witness for C1 at a concrete pair of store values. -/
theorem compute_button_state_spec_witness :
    bim_compute_button_state .pynone (.str "x") = true :=
  (compute_button_state_spec .pynone (.str "x")).2 (Or.inl rfl)

/-- C10: when the uploaded contents string does not contain exactly one
comma, the two-way unpack of the data-URI split fails, the `ValueError` is
caught, and both upload callbacks return an error status with `None`
stored. -/
theorem upload_bad_split_total (env : ExternalEnv) (s name : String)
    (h : s.data.count comma ≠ 1) :
    (∃ e, upload_ifc_file env s name = (.failure e, .pynone)) ∧
    (∃ e, upload_runner_config env s name = (.failure e, .pynone)) := by
  have hlen : (pySplit s comma).length ≠ 2 := by
    rw [pySplit_length]; omega
  obtain ⟨e, he⟩ := unpack2_length_ne_two _ hlen
  exact ⟨⟨e, by simp [upload_ifc_file, he]⟩, ⟨e, by simp [upload_runner_config, he]⟩⟩

/-- Witness for C10 at a contents string with no comma. -/
theorem upload_bad_split_total_witness :
    ∃ e, upload_ifc_file sampleEnv "nocomma" "f.ifc" = (.failure e, .pynone) :=
  (upload_bad_split_total sampleEnv "nocomma" "f.ifc" (by decide)).1

/-- C2: `upload_ifc_file` returns an error status only together with a null
stored model; whenever decoding, temp-file writing or `BimModel.from_ifc`
raises, it returns that exception text and `None`; and on success it returns
the success message together with the base64 content string (the part of the
data URI after the comma). -/
theorem upload_ifc_file_spec (env : ExternalEnv) (s name : String) :
    (∀ m d, upload_ifc_file env s name = (.failure m, d) → d = .pynone) ∧
    (∀ m d, upload_ifc_file env s name = (.success m, d) →
      m = "Sucessfully parsed " ++ name ∧
      ∃ parts, unpack2 (pySplit s comma) = .ok parts ∧ d = .str parts.2) ∧
    (∀ parts, unpack2 (pySplit s comma) = .ok parts →
      (∀ e, env.b64decode parts.2 = .error e →
        upload_ifc_file env s name = (.failure e, .pynone)) ∧
      (∀ bytes, env.b64decode parts.2 = .ok bytes →
        (∀ e, env.write_temp bytes = .error e →
          upload_ifc_file env s name = (.failure e, .pynone)) ∧
        (∀ u, env.write_temp bytes = .ok u →
          ∀ e, env.from_ifc bytes = .error e →
            upload_ifc_file env s name = (.failure e, .pynone)))) := by
  refine ⟨?_, ?_, ?_⟩
  · intro m d hmd
    simp only [upload_ifc_file] at hmd
    repeat' split at hmd
    all_goals simp_all
  · intro m d hmd
    simp only [upload_ifc_file] at hmd
    repeat' split at hmd
    all_goals simp_all
  · intro parts h1
    refine ⟨?_, ?_⟩
    · intro e h2
      simp [upload_ifc_file, h1, h2]
    · intro bytes h2
      refine ⟨?_, ?_⟩
      · intro e h3
        simp [upload_ifc_file, h1, h2, h3]
      · intro u h3 e h4
        simp [upload_ifc_file, h1, h2, h3, h4]

/-- Witness for C2: a contents string whose base64 part the decoder rejects
produces the decoder's exception text and a null stored model. -/
theorem upload_ifc_file_spec_witness :
    upload_ifc_file sampleEnv "header,BAD" "f.ifc" =
      (.failure "Invalid base64-encoded string", .pynone) :=
  ((upload_ifc_file_spec sampleEnv "header,BAD" "f.ifc").2.2 ("header", "BAD")
    (by decide)).1 "Invalid base64-encoded string" (by decide)

/-- C3: `upload_runner_config` returns an error status only together with a
null stored config, and whenever decoding, `load_workbook` or
`RunnerConfig.from_excel` raises, it returns that exception text and `None`
(no partially parsed config is ever stored). -/
theorem upload_runner_config_spec (env : ExternalEnv) (s name : String) :
    (∀ m d, upload_runner_config env s name = (.failure m, d) → d = .pynone) ∧
    (∀ m d, upload_runner_config env s name = (.success m, d) →
      ∃ cfg, d = .obj (env.model_dump cfg)) ∧
    (∀ parts, unpack2 (pySplit s comma) = .ok parts →
      (∀ e, env.b64decode parts.2 = .error e →
        upload_runner_config env s name = (.failure e, .pynone)) ∧
      (∀ bytes, env.b64decode parts.2 = .ok bytes →
        (∀ e, env.load_workbook bytes = .error e →
          upload_runner_config env s name = (.failure e, .pynone)) ∧
        (∀ wb, env.load_workbook bytes = .ok wb →
          ∀ e, env.from_excel wb = .error e →
            upload_runner_config env s name = (.failure e, .pynone)))) := by
  refine ⟨?_, ?_, ?_⟩
  · intro m d hmd
    simp only [upload_runner_config] at hmd
    repeat' split at hmd
    all_goals simp_all
  · intro m d hmd
    simp only [upload_runner_config] at hmd
    repeat' split at hmd
    all_goals simp_all
    rename_i cfg heq
    exact ⟨cfg, hmd.2.symm⟩
  · intro parts h1
    refine ⟨?_, ?_⟩
    · intro e h2
      simp [upload_runner_config, h1, h2]
    · intro bytes h2
      refine ⟨?_, ?_⟩
      · intro e h3
        simp [upload_runner_config, h1, h2, h3]
      · intro wb h3 e h4
        simp [upload_runner_config, h1, h2, h3, h4]

/-- Witness for C3: a contents string whose decoded bytes `load_workbook`
rejects produces the loader's exception text and a null stored config. -/
theorem upload_runner_config_spec_witness :
    upload_runner_config sampleEnv "header," "cfg.xlsx" =
      (.failure "File is not a zip file", .pynone) :=
  (((upload_runner_config_spec sampleEnv "header," "cfg.xlsx").2.2 ("header", "")
    (by decide)).2 [] (by decide)).1 "File is not a zip file" (by decide)

/-- C6: on a successful upload, the model store holds the base64 content
string (the part of the data URI after the comma) and the config store holds
the parsed config serialized through `model_dump(mode=json)`, with the
config obtained from the decoded bytes via `load_workbook` and
`RunnerConfig.from_excel`. -/
theorem upload_success_storage (env : ExternalEnv) (s name : String) :
    (∀ m d, upload_ifc_file env s name = (.success m, d) →
      ∃ parts, unpack2 (pySplit s comma) = .ok parts ∧ d = .str parts.2) ∧
    (∀ m d, upload_runner_config env s name = (.success m, d) →
      ∃ parts bytes wb cfg,
        unpack2 (pySplit s comma) = .ok parts ∧
        env.b64decode parts.2 = .ok bytes ∧
        env.load_workbook bytes = .ok wb ∧
        env.from_excel wb = .ok cfg ∧
        d = .obj (env.model_dump cfg)) := by
  refine ⟨?_, ?_⟩
  · intro m d hmd
    simp only [upload_ifc_file] at hmd
    repeat' split at hmd
    all_goals simp_all
  · intro m d hmd
    simp only [upload_runner_config] at hmd
    repeat' split at hmd
    all_goals simp_all

/-- Witness for C6: a successful IFC upload stores exactly the part of the
contents string after the comma. -/
theorem upload_success_storage_witness :
    ∃ parts, unpack2 (pySplit "h,data" comma) = .ok parts ∧
      StoreData.str "data" = .str parts.2 :=
  (upload_success_storage sampleEnv "h,data" "m.ifc").1
    "Sucessfully parsed m.ifc" (.str "data") (by decide)

/-- C5: in each of the three processing callbacks, an exception raised by
any stage of the body is caught by the blanket handler and returned as the
exception text rendered in place of the normal result (an error status with
null store for the uploads, the error fragment for the compute callback);
the callbacks are total functions of their inputs, so nothing propagates. -/
theorem callbacks_catch_all (env : ExternalEnv) (s name : String)
    (cfg mb : StoreData) :
    ((∀ e, unpack2 (pySplit s comma) = .error e →
        upload_ifc_file env s name = (.failure e, .pynone) ∧
        upload_runner_config env s name = (.failure e, .pynone)) ∧
      (∀ parts, unpack2 (pySplit s comma) = .ok parts →
        ∀ e, env.b64decode parts.2 = .error e →
          upload_ifc_file env s name = (.failure e, .pynone) ∧
          upload_runner_config env s name = (.failure e, .pynone)) ∧
      (∀ parts bytes, unpack2 (pySplit s comma) = .ok parts →
        env.b64decode parts.2 = .ok bytes →
        (∀ e, env.write_temp bytes = .error e →
          upload_ifc_file env s name = (.failure e, .pynone)) ∧
        (∀ u e, env.write_temp bytes = .ok u → env.from_ifc bytes = .error e →
          upload_ifc_file env s name = (.failure e, .pynone)) ∧
        (∀ e, env.load_workbook bytes = .error e →
          upload_runner_config env s name = (.failure e, .pynone)) ∧
        (∀ wb e, env.load_workbook bytes = .ok wb → env.from_excel wb = .error e →
          upload_runner_config env s name = (.failure e, .pynone)))) ∧
    ((∀ e, env.model_validate cfg = .error e →
        compute_runner_times env cfg mb = .errorPage e) ∧
      (∀ config, env.model_validate cfg = .ok config →
        (∀ e, b64decodeStore env mb = .error e →
          compute_runner_times env cfg mb = .errorPage e) ∧
        (∀ bytes, b64decodeStore env mb = .ok bytes →
          (∀ e, env.write_temp bytes = .error e →
            compute_runner_times env cfg mb = .errorPage e) ∧
          (∀ u e, env.write_temp bytes = .ok u → env.from_ifc bytes = .error e →
            compute_runner_times env cfg mb = .errorPage e)))) := by
  refine ⟨⟨?_, ?_, ?_⟩, ?_, ?_⟩
  · intro e h1
    exact ⟨by simp [upload_ifc_file, h1], by simp [upload_runner_config, h1]⟩
  · intro parts h1 e h2
    exact ⟨by simp [upload_ifc_file, h1, h2], by simp [upload_runner_config, h1, h2]⟩
  · intro parts bytes h1 h2
    refine ⟨?_, ?_, ?_, ?_⟩
    · intro e h3
      simp [upload_ifc_file, h1, h2, h3]
    · intro u e h3 h4
      simp [upload_ifc_file, h1, h2, h3, h4]
    · intro e h3
      simp [upload_runner_config, h1, h2, h3]
    · intro wb e h3 h4
      simp [upload_runner_config, h1, h2, h3, h4]
  · intro e h1
    simp [compute_runner_times, h1]
  · intro config h1
    refine ⟨?_, ?_⟩
    · intro e h2
      simp [compute_runner_times, h1, h2]
    · intro bytes h2
      refine ⟨?_, ?_⟩
      · intro e h3
        simp [compute_runner_times, h1, h2, h3]
      · intro u e h3 h4
        simp [compute_runner_times, h1, h2, h3, h4]

/-- Witness for C5: a compute click on an invalid stored config surfaces the
validation exception text as the error fragment. -/
theorem callbacks_catch_all_witness :
    compute_runner_times sampleEnv .pynone (.str "data") =
      .errorPage "validation error" :=
  (callbacks_catch_all sampleEnv "x,y" "n" .pynone (.str "data")).2.1
    "validation error" (by decide)

/-- C9: every compute click re-derives both inputs from stored state: the
output is the rendering of `runner_times` applied exactly to the model
rebuilt by `from_ifc` on the freshly decoded stored base64 and to the config
revalidated by `model_validate`, and any failure of this re-derivation
yields the error fragment instead of results. -/
theorem compute_rederives_inputs (env : ExternalEnv) (cfg mb : StoreData) :
    (∃ config bytes u model,
      env.model_validate cfg = .ok config ∧
      b64decodeStore env mb = .ok bytes ∧
      env.write_temp bytes = .ok u ∧
      env.from_ifc bytes = .ok model ∧
      compute_runner_times env cfg mb =
        .rendered (ui_compute_runner_times env model config)) ∨
    (∃ e, compute_runner_times env cfg mb = .errorPage e ∧
      (env.model_validate cfg = .error e ∨
       b64decodeStore env mb = .error e ∨
       (∃ bytes, b64decodeStore env mb = .ok bytes ∧
         (env.write_temp bytes = .error e ∨ env.from_ifc bytes = .error e)))) := by
  cases h1 : env.model_validate cfg with
  | error e => exact Or.inr ⟨e, by simp [compute_runner_times, h1], Or.inl rfl⟩
  | ok config =>
    cases h2 : b64decodeStore env mb with
    | error e =>
      exact Or.inr ⟨e, by simp [compute_runner_times, h1, h2], Or.inr (Or.inl rfl)⟩
    | ok bytes =>
      cases h3 : env.write_temp bytes with
      | error e =>
        exact Or.inr ⟨e, by simp [compute_runner_times, h1, h2, h3],
          Or.inr (Or.inr ⟨bytes, rfl, Or.inl h3⟩)⟩
      | ok u =>
        cases h4 : env.from_ifc bytes with
        | error e =>
          exact Or.inr ⟨e, by simp [compute_runner_times, h1, h2, h3, h4],
            Or.inr (Or.inr ⟨bytes, rfl, Or.inr h4⟩)⟩
        | ok model =>
          exact Or.inl ⟨config, bytes, u, model, rfl, rfl, h3, h4,
            by simp [compute_runner_times, h1, h2, h3, h4]⟩

/-- C4: the rendered results table has exactly the two logical columns
`runner_journey` and `runner_time`, its displayed time values are the
result values rounded to three decimal places, and the data stored in the
`store-bim-results` store under the key `runner_times` is the unrounded
full-precision data. -/
theorem results_table_rounding (env : ExternalEnv) (model : BimModel)
    (config : RunnerConfig) :
    (ui_compute_runner_times env model config).columns =
      ["runner_journey", "runner_time"] ∧
    (ui_compute_runner_times env model config).tableRows =
      (dfRows (env.runner_times model config)).map (fun x => (x.1, round3 x.2)) ∧
    (ui_compute_runner_times env model config).storeId = "store-bim-results" ∧
    (ui_compute_runner_times env model config).storeData =
      [("runner_times", dfToDict (dfRows (env.runner_times model config)))] ∧
    (dfRows (env.runner_times model config)).map Prod.snd =
      (env.runner_times model config).map Prod.snd := by
  refine ⟨rfl, rfl, rfl, rfl, ?_⟩
  simp [dfRows, List.map_map, Function.comp]

/-- C8 counterexample: for the concrete result mapping with the single tuple
key `(a, b)`, the displayed journey identifier is the quote-stripped string,
but the stored full-precision data is keyed by the column names
`runner_journey` and `runner_time` (with integer row indices inside), not by
the quote-stripped journey strings. -/
theorem stored_results_keying_counterexample :
    (ui_compute_runner_times sampleEnv ⟨[1]⟩ ⟨[1]⟩).tableRows =
      [("(a, b)", mkRat 3 2)] ∧
    (ui_compute_runner_times sampleEnv ⟨[1]⟩ ⟨[1]⟩).storeData =
      [("runner_times",
        [("runner_journey", [((0 : Int), CellVal.str "(a, b)")]),
         ("runner_time", [((0 : Int), CellVal.rat (mkRat 3 2))])])] ∧
    (dfToDict (dfRows (sampleEnv.runner_times ⟨[1]⟩ ⟨[1]⟩))).map Prod.fst =
      ["runner_journey", "runner_time"] ∧
    "(a, b)" ∉ (dfToDict (dfRows (sampleEnv.runner_times ⟨[1]⟩ ⟨[1]⟩))).map Prod.fst := by
  decide

/-- C8 (amended): every journey identifier shown in the table is `str(k)`
with single quotes removed (so the tuple key of `a` and `b` displays as
`(a, b)`), and the stored full-precision data contains those same
quote-stripped strings as the values of its `runner_journey` column, keyed
by row index in `df.to_dict` form. -/
theorem results_journey_display (env : ExternalEnv) (model : BimModel)
    (config : RunnerConfig) :
    (ui_compute_runner_times env model config).tableRows =
      (env.runner_times model config).map
        (fun kv => (removeQuotes kv.1.pyStr, round3 kv.2)) ∧
    (ui_compute_runner_times env model config).storeData =
      [("runner_times", dfToDict ((env.runner_times model config).map
        (fun kv => (removeQuotes kv.1.pyStr, kv.2))))] ∧
    removeQuotes (JKey.pyStr (.tup ["a", "b"])) = "(a, b)" := by
  refine ⟨?_, ?_, by decide⟩
  · simp [ui_compute_runner_times, dfRows, List.map_map, Function.comp]
  · simp [ui_compute_runner_times, dfRows]

/-- C7: for any location of `main.py`, the template download resolves
`Path(__file__) / ../../assets/runner_times_template.xlsx` to the
`runner_times_template.xlsx` file in the package assets directory
`bim_des/assets`, offered under the filename
`runner_times_template.xlsx`. -/
theorem download_template_path (root : List String) :
    download_runner_template (root ++ ["bim_des", "ui", "main.py"]) =
      (resolveComponents root ++
        ["bim_des", "assets", "runner_times_template.xlsx"],
       "runner_times_template.xlsx") := by
  unfold download_runner_template templateRel resolveComponents
  rw [List.append_assoc, List.foldl_append]
  simp [resolveStep]

end BimDes
